import Mathlib

/- Shallow embedding of the ComfyUI-FreeMemory nodes
   (src/free_memory_node.py).

   The routine is a fixed, linear sequence of calls into external
   collaborators (torch.cuda, gc, comfy.model_management, psutil,
   subprocess, ctypes) with logging.  Each call site's outcome is
   recorded in an environment `Env`; the routine becomes a pure function
   from the environment to (event trace, exception-or-unit result).
   Python's `try/except` blocks become pattern matches on the recorded
   outcomes; an exception raised at a call site that the source does not
   guard propagates as `Except.error`.  Python floats are idealised as
   rationals. -/

namespace FreeMemory

/-- A Python exception, abstracted to its message. -/
inductive Pexc where
  | exc : String → Pexc
  deriving DecidableEq, Repr

/-- Result of `psutil.virtual_memory()`: usage percent and available bytes. -/
structure VMem where
  percent : ℚ
  available : Int
  deriving DecidableEq, Repr

/-- Outcome of a `subprocess.run` call, distinguishing exactly the cases the
source handles (lines 96-103 and 106-120). -/
inductive RunResult where
  | ok (stdout stderr : String)
  | calledProcessError (returncode : Int) (stderr : String)
  | fileNotFound
  | timeoutExpired
  | otherError (msg : String)
  deriving DecidableEq, Repr

/-- Outcome of the Windows working-set branch (lines 123-143). -/
inductive WinResult where
  | attributeError
  | getProcNull (errCode : Int)
  | emptySucceeded
  | emptyFailed (errCode : Int)
  | otherError (msg : String)
  deriving DecidableEq, Repr

/-- Value of `os.name`, abstracted to the three branches the source
distinguishes (posix / nt / anything else). -/
inductive OSName where
  | posix
  | nt
  | other (s : String)
  deriving DecidableEq, Repr

/-- One `print` line of the source, abstracted to a constructor carrying the
data interpolated into the message. -/
inductive LogMsg where
  | banner
  | attempting
  | finished
  | attemptFreeGpu
  | cudaNotAvailable
  | vramBefore (alloc reserved : ℚ)
  | warnInitialVram (e : Pexc)
  | calledEmptyCache
  | aggressiveUnloading
  | errAggressiveUnload (e : Pexc)
  | modelsUnloaded
  | nonAggressiveModelsKept
  | vramAfter (alloc reserved : ℚ)
  | vramFreedAllocated (freed : ℚ)
  | warnFinalVram (e : Pexc)
  | attemptFreeRam
  | ramBefore (percent avail : ℚ)
  | gcCollected (n : Int)
  | aggressiveCacheClearing
  | warnNotRoot
  | runningSync
  | syncCompleted
  | errSyncNotFound
  | errSyncCalled (code : Int) (stderr : String)
  | errSyncTimeout
  | errSyncOther (msg : String)
  | attemptDropCaches
  | teeExecuted
  | teeStderrNote (stderr : String)
  | errTeeNotFound
  | errDropCaches (code : Int) (stderr : String)
  | errTeeTimeout
  | errTeeOther (msg : String)
  | attemptEmptyWorkingSet
  | errWinAttr
  | errWinGetProc (code : Int)
  | winEmptyOk
  | winEmptyFailed (code : Int)
  | errWinOther (msg : String)
  | notImplementedOS (s : String)
  | nonAggressiveSkipCache
  | ramAfter (percent avail : ℚ)
  | ramUsageChange (pts : ℚ)
  | ramAvailableChange (gb : ℚ)
  deriving DecidableEq, Repr

/-- Observable events: log lines and calls into external collaborators. -/
inductive Event where
  | log (m : LogMsg)
  | gcCollect
  | emptyCache
  | unloadAllModels
  | queryVramStats
  | queryVirtualMemory
  | runSync (timeoutSecs : Nat)
  | runTee (input : String) (timeoutSecs : Nat)
  | getCurrentProcess
  | emptyWorkingSet
  deriving DecidableEq, Repr

/-- Recorded outcome of every external call site one invocation can reach.
Call sites are named by source line: `gc1` is `gc.collect()` at line 46,
`gc2` at line 55, `gc3` at line 85; `empty_cache1` is line 47,
`empty_cache2` line 56; `vram_init`/`vram_final` are the
`memory_allocated`/`memory_reserved` query pairs at lines 38-39 and 66-67;
`vm_init`/`vm_final` are `psutil.virtual_memory()` at lines 79 and 151. -/
structure Env where
  cuda_available : Bool
  vram_init : Except Pexc (Int × Int)
  gc1 : Except Pexc Int
  empty_cache1 : Except Pexc Unit
  unload : Except Pexc Unit
  gc2 : Except Pexc Int
  empty_cache2 : Except Pexc Unit
  vram_final : Except Pexc (Int × Int)
  vm_init : Except Pexc VMem
  gc3 : Except Pexc Int
  os_name : OSName
  euid : Int
  sync_run : RunResult
  tee_run : RunResult
  win_run : WinResult
  vm_final : Except Pexc VMem
  deriving Repr

/-- Mirrors `bytes_to_gb` (line 12): divide a byte count by 1024^3
(float arithmetic idealised as exact rational arithmetic). -/
def bytes_to_gb (b : Int) : ℚ := (b : ℚ) / 1024 ^ 3

/-- Events of the initial-VRAM-stats try block (lines 37-43): the query pair,
then either the before-line or the caught warning. -/
def vramInitEvents : Except Pexc (Int × Int) → List Event
  | Except.ok p =>
      [Event.queryVramStats,
       Event.log (LogMsg.vramBefore (bytes_to_gb p.1) (bytes_to_gb p.2))]
  | Except.error e => [Event.queryVramStats, Event.log (LogMsg.warnInitialVram e)]

/-- The `initial_allocated_gb` value after the initial-stats try block:
on an exception the except arm sets it to 0 (line 43). -/
def initAllocGb : Except Pexc (Int × Int) → ℚ
  | Except.ok p => bytes_to_gb p.1
  | Except.error _ => 0

/-- Events of the aggressive unload try block (lines 53-59): the statements
after a raising one are skipped and the exception is caught and logged. -/
def unloadEvents (unload : Except Pexc Unit) (gc2 : Except Pexc Int)
    (ec2 : Except Pexc Unit) : List Event :=
  match unload with
  | Except.error e => [Event.log (LogMsg.errAggressiveUnload e)]
  | Except.ok _ =>
    match gc2 with
    | Except.error e => [Event.gcCollect, Event.log (LogMsg.errAggressiveUnload e)]
    | Except.ok _ =>
      match ec2 with
      | Except.error e =>
          [Event.gcCollect, Event.emptyCache,
           Event.log (LogMsg.errAggressiveUnload e)]
      | Except.ok _ =>
          [Event.gcCollect, Event.emptyCache, Event.log LogMsg.modelsUnloaded]

/-- Events of the final-VRAM-stats try block (lines 65-72): reports final
figures and `initial_allocated_gb - final_allocated_gb`, or the caught
warning. -/
def vramFinalEvents (initialAllocGb : ℚ) : Except Pexc (Int × Int) → List Event
  | Except.ok p =>
      [Event.queryVramStats,
       Event.log (LogMsg.vramAfter (bytes_to_gb p.1) (bytes_to_gb p.2)),
       Event.log (LogMsg.vramFreedAllocated (initialAllocGb - bytes_to_gb p.1))]
  | Except.error e => [Event.queryVramStats, Event.log (LogMsg.warnFinalVram e)]

/-- Mirrors `FreeMemoryBase.free_gpu_vram` (lines 29-72).  Returns the event
trace and either normal completion or the uncaught exception.  `gc.collect()`
(line 46) and `torch.cuda.empty_cache()` (line 47) are outside every try
block, so their exceptions propagate. -/
def free_gpu_vram (aggressive : Bool) (env : Env) :
    List Event × Except Pexc Unit :=
  if env.cuda_available = false then
    ([Event.log LogMsg.attemptFreeGpu, Event.log LogMsg.cudaNotAvailable],
     Except.ok ())
  else
    match env.gc1 with
    | Except.error e =>
        ([Event.log LogMsg.attemptFreeGpu] ++ vramInitEvents env.vram_init ++
           [Event.gcCollect], Except.error e)
    | Except.ok _ =>
      match env.empty_cache1 with
      | Except.error e =>
          ([Event.log LogMsg.attemptFreeGpu] ++ vramInitEvents env.vram_init ++
             [Event.gcCollect, Event.emptyCache], Except.error e)
      | Except.ok _ =>
          ([Event.log LogMsg.attemptFreeGpu] ++ vramInitEvents env.vram_init ++
             [Event.gcCollect, Event.emptyCache,
              Event.log LogMsg.calledEmptyCache] ++
             (if aggressive then
                [Event.log LogMsg.aggressiveUnloading, Event.unloadAllModels] ++
                  unloadEvents env.unload env.gc2 env.empty_cache2
              else [Event.log LogMsg.nonAggressiveModelsKept]) ++
             vramFinalEvents (initAllocGb env.vram_init) env.vram_final,
           Except.ok ())

/-- Events reacting to the `sync` subprocess outcome (lines 98-103). -/
def syncEvents : RunResult → List Event
  | RunResult.ok _ _ => [Event.log LogMsg.syncCompleted]
  | RunResult.fileNotFound => [Event.log LogMsg.errSyncNotFound]
  | RunResult.calledProcessError c se => [Event.log (LogMsg.errSyncCalled c se)]
  | RunResult.timeoutExpired => [Event.log LogMsg.errSyncTimeout]
  | RunResult.otherError m => [Event.log (LogMsg.errSyncOther m)]

/-- Events reacting to the `tee /proc/sys/vm/drop_caches` subprocess outcome
(lines 110-120), including the stderr note on success (line 116). -/
def teeEvents : RunResult → List Event
  | RunResult.ok _ se =>
      Event.log LogMsg.teeExecuted ::
        (if se = "" then [] else [Event.log (LogMsg.teeStderrNote se)])
  | RunResult.fileNotFound => [Event.log LogMsg.errTeeNotFound]
  | RunResult.calledProcessError c se => [Event.log (LogMsg.errDropCaches c se)]
  | RunResult.timeoutExpired => [Event.log LogMsg.errTeeTimeout]
  | RunResult.otherError m => [Event.log (LogMsg.errTeeOther m)]

/-- Events of the Windows working-set branch (lines 123-143). -/
def winEvents : WinResult → List Event
  | WinResult.attributeError => [Event.log LogMsg.errWinAttr]
  | WinResult.getProcNull c =>
      [Event.getCurrentProcess, Event.log (LogMsg.errWinGetProc c)]
  | WinResult.emptySucceeded =>
      [Event.getCurrentProcess, Event.emptyWorkingSet, Event.log LogMsg.winEmptyOk]
  | WinResult.emptyFailed c =>
      [Event.getCurrentProcess, Event.emptyWorkingSet,
       Event.log (LogMsg.winEmptyFailed c)]
  | WinResult.otherError m => [Event.log (LogMsg.errWinOther m)]

/-- Events of the aggressive system-cache-clearing block (lines 89-145):
POSIX runs `sync` with a 30s timeout then `tee` writing "3" with a 10s
timeout; Windows trims the working set; other OS families log and no-op. -/
def cacheClearEvents (env : Env) : List Event :=
  Event.log LogMsg.aggressiveCacheClearing ::
  (match env.os_name with
   | OSName.posix =>
       (if env.euid = 0 then [] else [Event.log LogMsg.warnNotRoot]) ++
       [Event.log LogMsg.runningSync, Event.runSync 30] ++
       syncEvents env.sync_run ++
       [Event.log LogMsg.attemptDropCaches, Event.runTee "3" 10] ++
       teeEvents env.tee_run
   | OSName.nt =>
       [Event.log LogMsg.attemptEmptyWorkingSet] ++ winEvents env.win_run
   | OSName.other s => [Event.log (LogMsg.notImplementedOS s)])

/-- Mirrors `FreeMemoryBase.free_system_ram` (lines 74-159).
`psutil.virtual_memory()` (lines 79 and 151) and `gc.collect()` (line 85)
are outside every try block, so their exceptions propagate. -/
def free_system_ram (aggressive : Bool) (env : Env) :
    List Event × Except Pexc Unit :=
  match env.vm_init with
  | Except.error e =>
      ([Event.log LogMsg.attemptFreeRam, Event.queryVirtualMemory],
       Except.error e)
  | Except.ok vi =>
    match env.gc3 with
    | Except.error e =>
        ([Event.log LogMsg.attemptFreeRam, Event.queryVirtualMemory,
          Event.log (LogMsg.ramBefore vi.percent (bytes_to_gb vi.available)),
          Event.gcCollect], Except.error e)
    | Except.ok n =>
      match env.vm_final with
      | Except.error e =>
          ([Event.log LogMsg.attemptFreeRam, Event.queryVirtualMemory,
            Event.log (LogMsg.ramBefore vi.percent (bytes_to_gb vi.available)),
            Event.gcCollect, Event.log (LogMsg.gcCollected n)] ++
           (if aggressive then cacheClearEvents env
            else [Event.log LogMsg.nonAggressiveSkipCache]) ++
           [Event.queryVirtualMemory], Except.error e)
      | Except.ok vf =>
          ([Event.log LogMsg.attemptFreeRam, Event.queryVirtualMemory,
            Event.log (LogMsg.ramBefore vi.percent (bytes_to_gb vi.available)),
            Event.gcCollect, Event.log (LogMsg.gcCollected n)] ++
           (if aggressive then cacheClearEvents env
            else [Event.log LogMsg.nonAggressiveSkipCache]) ++
           [Event.queryVirtualMemory,
            Event.log (LogMsg.ramAfter vf.percent (bytes_to_gb vf.available)),
            Event.log (LogMsg.ramUsageChange (vi.percent - vf.percent)),
            Event.log (LogMsg.ramAvailableChange
              (bytes_to_gb vf.available - bytes_to_gb vi.available))],
           Except.ok ())

/-- Mirrors `FreeMemoryBase.free_memory` (lines 20-27): the GPU step, then
the system-RAM step; an exception escaping either one propagates and cuts
the sequence short. -/
def free_memory (aggressive : Bool) (env : Env) :
    List Event × Except Pexc Unit :=
  match (free_gpu_vram aggressive env).2 with
  | Except.error e =>
      ([Event.log LogMsg.banner, Event.log LogMsg.attempting] ++
         (free_gpu_vram aggressive env).1, Except.error e)
  | Except.ok _ =>
    match (free_system_ram aggressive env).2 with
    | Except.error e =>
        ([Event.log LogMsg.banner, Event.log LogMsg.attempting] ++
           (free_gpu_vram aggressive env).1 ++
           (free_system_ram aggressive env).1, Except.error e)
    | Except.ok _ =>
        ([Event.log LogMsg.banner, Event.log LogMsg.attempting] ++
           (free_gpu_vram aggressive env).1 ++
           (free_system_ram aggressive env).1 ++
           [Event.log LogMsg.finished, Event.log LogMsg.banner],
         Except.ok ())

/-- Mirrors the `free_memory_passthrough` callbacks (lines 169, 177, 185,
193, 207-211): run `free_memory`, then return the payload unchanged.  The
Python 1-tuple `(x,)` is modelled as the bare payload; an exception escaping
`free_memory` propagates instead of a return. -/
def free_memory_passthrough {α : Type} (x : α) (aggressive : Bool)
    (env : Env) : List Event × Except Pexc α :=
  match free_memory aggressive env with
  | (t, Except.error e) => (t, Except.error e)
  | (t, Except.ok _) => (t, Except.ok x)

end FreeMemory

namespace FreeMemory

/-- A concrete environment in which every collaborator call succeeds:
CUDA present, POSIX, non-root, allocated VRAM drops from 3 GiB to 1 GiB,
RAM usage drops from 50% to 40% while available bytes grow from 8 GiB to
10 GiB. -/
def envBenign : Env :=
  { cuda_available := true
    vram_init := Except.ok (3 * 1024 ^ 3, 4 * 1024 ^ 3)
    gc1 := Except.ok 5
    empty_cache1 := Except.ok ()
    unload := Except.ok ()
    gc2 := Except.ok 2
    empty_cache2 := Except.ok ()
    vram_final := Except.ok (1 * 1024 ^ 3, 2 * 1024 ^ 3)
    vm_init := Except.ok { percent := 50, available := 8 * 1024 ^ 3 }
    gc3 := Except.ok 7
    os_name := OSName.posix
    euid := 1000
    sync_run := RunResult.ok "" ""
    tee_run := RunResult.ok "3" ""
    win_run := WinResult.emptySucceeded
    vm_final := Except.ok { percent := 40, available := 10 * 1024 ^ 3 } }

end FreeMemory

namespace FreeMemory

/-- Abstract external actions, used to state ordering properties. -/
inductive Action where
  | captureStats
  | gcA
  | emptyCacheA
  | unloadA
  | syncA
  | teeA
  | winA
  deriving DecidableEq, Repr

/-- The external action an event denotes, if any (log lines denote none;
the Windows process-handle lookup is bookkeeping, not a cache action). -/
def evAction : Event → Option Action
  | Event.gcCollect => some Action.gcA
  | Event.emptyCache => some Action.emptyCacheA
  | Event.unloadAllModels => some Action.unloadA
  | Event.queryVramStats => some Action.captureStats
  | Event.queryVirtualMemory => some Action.captureStats
  | Event.runSync _ => some Action.syncA
  | Event.runTee _ _ => some Action.teeA
  | Event.emptyWorkingSet => some Action.winA
  | Event.getCurrentProcess => none
  | Event.log _ => none

/-- The sequence of external actions in a trace. -/
def actionsOf (t : List Event) : List Action := t.filterMap evAction

/-- The action sequence prescribed by spec section 2 (a)-(f), taken
literally: baseline stats, gc, cache-empty, if aggressive unload then gc
and cache-empty again, if aggressive the OS cache drop (POSIX: sync then
the drop-caches write), final stats. -/
def specActionSeq (aggressive : Bool) : List Action :=
  [Action.captureStats, Action.gcA, Action.emptyCacheA] ++
  (if aggressive then [Action.unloadA, Action.gcA, Action.emptyCacheA] else []) ++
  (if aggressive then [Action.syncA, Action.teeA] else []) ++
  [Action.captureStats]

/-- The action sequence the code actually performs on POSIX when every
collaborator call succeeds: a GPU phase (stats, gc, cache-empty, optional
unload round, stats) followed by a RAM phase (stats, gc, optional sync and
drop-caches write, stats). -/
def codeActionSeq (aggressive : Bool) : List Action :=
  [Action.captureStats, Action.gcA, Action.emptyCacheA] ++
  (if aggressive then [Action.unloadA, Action.gcA, Action.emptyCacheA] else []) ++
  [Action.captureStats, Action.captureStats, Action.gcA] ++
  (if aggressive then [Action.syncA, Action.teeA] else []) ++
  [Action.captureStats]

/-- Events that only the aggressive mode may produce: the model unload and
every OS cache-clearing action. -/
def aggressiveOnlyEv : Event → Bool
  | Event.unloadAllModels => true
  | Event.runSync _ => true
  | Event.runTee _ _ => true
  | Event.getCurrentProcess => true
  | Event.emptyWorkingSet => true
  | _ => false

/-- Count the events satisfying a predicate. -/
def countEv (p : Event → Bool) (t : List Event) : Nat := (t.filter p).length

/-- Recognizer for garbage-collection events. -/
def isGcEv : Event → Bool
  | Event.gcCollect => true
  | _ => false

/-- Recognizer for accelerator cache-empty events. -/
def isEmptyCacheEv : Event → Bool
  | Event.emptyCache => true
  | _ => false

/-- Like `envBenign` but the initial `psutil.virtual_memory()` call raises. -/
def envVmFail : Env :=
  { envBenign with vm_init := Except.error (Pexc.exc "virtual_memory failed") }

/-- Like `envBenign` but `mm.unload_all_models()` raises. -/
def envUnloadFail : Env :=
  { envBenign with unload := Except.error (Pexc.exc "unload failed") }

/-- Like `envBenign` but the initial VRAM-stats queries raise. -/
def envInitVramFail : Env :=
  { envBenign with vram_init := Except.error (Pexc.exc "stats failed") }

/-- Like `envBenign` but the drop-caches `tee` command exits non-zero with
a permission error on stderr. -/
def envTeeDenied : Env :=
  { envBenign with
      tee_run := RunResult.calledProcessError 1 "tee: permission denied" }

/-- Like `envBenign` but both the `sync` command and the `tee` command hit
their timeouts. -/
def envTimeouts : Env :=
  { envBenign with
      sync_run := RunResult.timeoutExpired
      tee_run := RunResult.timeoutExpired }

end FreeMemory

namespace FreeMemory

theorem free_gpu_vram_ok_eq (a : Bool) (env : Env) (n : Int)
    (hc : env.cuda_available = true) (hn : env.gc1 = Except.ok n)
    (he : env.empty_cache1 = Except.ok ()) :
    free_gpu_vram a env =
      ([Event.log LogMsg.attemptFreeGpu] ++ vramInitEvents env.vram_init ++
         [Event.gcCollect, Event.emptyCache,
          Event.log LogMsg.calledEmptyCache] ++
         (if a then
            [Event.log LogMsg.aggressiveUnloading, Event.unloadAllModels] ++
              unloadEvents env.unload env.gc2 env.empty_cache2
          else [Event.log LogMsg.nonAggressiveModelsKept]) ++
         vramFinalEvents (initAllocGb env.vram_init) env.vram_final,
       Except.ok ()) := by
  simp [free_gpu_vram, hc, hn, he]

theorem free_gpu_vram_ok (a : Bool) (env : Env)
    (hg : ∃ n, env.gc1 = Except.ok n)
    (he : env.empty_cache1 = Except.ok ()) :
    (free_gpu_vram a env).2 = Except.ok () := by
  obtain ⟨n, hn⟩ := hg
  by_cases hc : env.cuda_available = false
  · simp [free_gpu_vram, hc]
  · rw [Bool.not_eq_false] at hc
    rw [free_gpu_vram_ok_eq a env n hc hn he]

theorem free_system_ram_ok_eq (a : Bool) (env : Env) (vi vf : VMem) (n : Int)
    (h1 : env.vm_init = Except.ok vi) (h2 : env.gc3 = Except.ok n)
    (h3 : env.vm_final = Except.ok vf) :
    free_system_ram a env =
      ([Event.log LogMsg.attemptFreeRam, Event.queryVirtualMemory,
        Event.log (LogMsg.ramBefore vi.percent (bytes_to_gb vi.available)),
        Event.gcCollect, Event.log (LogMsg.gcCollected n)] ++
       (if a then cacheClearEvents env
        else [Event.log LogMsg.nonAggressiveSkipCache]) ++
       [Event.queryVirtualMemory,
        Event.log (LogMsg.ramAfter vf.percent (bytes_to_gb vf.available)),
        Event.log (LogMsg.ramUsageChange (vi.percent - vf.percent)),
        Event.log (LogMsg.ramAvailableChange
          (bytes_to_gb vf.available - bytes_to_gb vi.available))],
       Except.ok ()) := by
  simp [free_system_ram, h1, h2, h3]

theorem free_system_ram_ok (a : Bool) (env : Env)
    (hvi : ∃ v, env.vm_init = Except.ok v)
    (hg : ∃ n, env.gc3 = Except.ok n)
    (hvf : ∃ v, env.vm_final = Except.ok v) :
    (free_system_ram a env).2 = Except.ok () := by
  obtain ⟨vi, h1⟩ := hvi
  obtain ⟨n, h2⟩ := hg
  obtain ⟨vf, h3⟩ := hvf
  rw [free_system_ram_ok_eq a env vi vf n h1 h2 h3]

theorem free_memory_ok_eq (a : Bool) (env : Env)
    (hg : (free_gpu_vram a env).2 = Except.ok ())
    (hs : (free_system_ram a env).2 = Except.ok ()) :
    free_memory a env =
      ([Event.log LogMsg.banner, Event.log LogMsg.attempting] ++
         (free_gpu_vram a env).1 ++ (free_system_ram a env).1 ++
         [Event.log LogMsg.finished, Event.log LogMsg.banner],
       Except.ok ()) := by
  simp [free_memory, hg, hs]

end FreeMemory

namespace FreeMemory

theorem actionsOf_vramInitEvents (x : Except Pexc (Int × Int)) :
    actionsOf (vramInitEvents x) = [Action.captureStats] := by
  cases x <;> rfl

theorem actionsOf_vramFinalEvents (q : ℚ) (x : Except Pexc (Int × Int)) :
    actionsOf (vramFinalEvents q x) = [Action.captureStats] := by
  cases x <;> rfl

theorem actionsOf_syncEvents (r : RunResult) :
    actionsOf (syncEvents r) = [] := by
  cases r <;> rfl

theorem actionsOf_teeEvents (r : RunResult) :
    actionsOf (teeEvents r) = [] := by
  cases r <;> simp [teeEvents, actionsOf, evAction]

theorem filterMap_evAction_syncEvents (r : RunResult) :
    List.filterMap evAction (syncEvents r) = [] := by
  cases r <;> rfl

theorem filterMap_evAction_teeEvents (r : RunResult) :
    List.filterMap evAction (teeEvents r) = [] := by
  cases r <;> simp [teeEvents, evAction]

theorem actionsOf_unloadEvents_ok (n : Int) :
    actionsOf (unloadEvents (Except.ok ()) (Except.ok n) (Except.ok ())) =
      [Action.gcA, Action.emptyCacheA] := rfl

theorem actionsOf_cacheClearEvents_posix (env : Env)
    (hos : env.os_name = OSName.posix) :
    actionsOf (cacheClearEvents env) = [Action.syncA, Action.teeA] := by
  by_cases heu : env.euid = 0 <;>
    simp [cacheClearEvents, hos, heu, actionsOf, List.filterMap_append,
      evAction, filterMap_evAction_syncEvents, filterMap_evAction_teeEvents]

theorem filter_vramInitEvents_gc (x : Except Pexc (Int × Int)) :
    (vramInitEvents x).filter isGcEv = [] := by
  cases x <;> rfl

theorem filter_vramFinalEvents_gc (q : ℚ) (x : Except Pexc (Int × Int)) :
    (vramFinalEvents q x).filter isGcEv = [] := by
  cases x <;> rfl

theorem filter_vramInitEvents_ec (x : Except Pexc (Int × Int)) :
    (vramInitEvents x).filter isEmptyCacheEv = [] := by
  cases x <;> rfl

theorem filter_vramFinalEvents_ec (q : ℚ) (x : Except Pexc (Int × Int)) :
    (vramFinalEvents q x).filter isEmptyCacheEv = [] := by
  cases x <;> rfl

theorem filter_vramInitEvents_aggrOnly (x : Except Pexc (Int × Int)) :
    (vramInitEvents x).filter aggressiveOnlyEv = [] := by
  cases x <;> rfl

theorem filter_vramFinalEvents_aggrOnly (q : ℚ) (x : Except Pexc (Int × Int)) :
    (vramFinalEvents q x).filter aggressiveOnlyEv = [] := by
  cases x <;> rfl

end FreeMemory

namespace FreeMemory

/-- C1: for every payload value and both values of the aggressive flag, the
node callback forwards exactly the payload it received: whatever the
collaborators do, `free_memory_passthrough` either returns the input payload
itself, unchanged, or propagates an exception of `free_memory` (in which
case nothing is returned at all) — it never returns a different payload. -/
theorem passthrough_identity {α : Type} (x : α) (aggressive : Bool)
    (env : Env) :
    (free_memory_passthrough x aggressive env).2 = Except.ok x ∨
      ∃ e, (free_memory_passthrough x aggressive env).2 = Except.error e := by
  unfold free_memory_passthrough
  rcases h : free_memory aggressive env with ⟨t, r⟩
  cases r with
  | error e => exact Or.inr ⟨e, by simp⟩
  | ok u => exact Or.inl (by simp)

/-- C2 counterexample: `free_memory` does raise.  In the environment in
which the initial `psutil.virtual_memory()` query (line 79, outside every
try block) raises and every other collaborator behaves, the exception
propagates to the caller instead of being downgraded to a warning. -/
theorem reclaim_raises_on_vm_query_error :
    (free_memory false envVmFail).2 =
      Except.error (Pexc.exc "virtual_memory failed") := rfl

/-- C2 (amended): failures of the guarded sub-steps (the VRAM stat
snapshots, the aggressive model unload with its repeated gc and
cache-empty, the sync / drop-caches / working-set calls) are caught and
never propagate; but the calls the source leaves unguarded — `gc.collect()`
at lines 46 and 85, `torch.cuda.empty_cache()` at line 47, and
`psutil.virtual_memory()` at lines 79 and 151 — propagate their exceptions.
Provided those unguarded calls succeed, `free_memory` completes without
raising for every behaviour of the guarded collaborators. -/
theorem reclaim_no_raise_when_unguarded_ok (aggressive : Bool) (env : Env)
    (hg1 : ∃ n, env.gc1 = Except.ok n)
    (he1 : env.empty_cache1 = Except.ok ())
    (hvi : ∃ v, env.vm_init = Except.ok v)
    (hg3 : ∃ n, env.gc3 = Except.ok n)
    (hvf : ∃ v, env.vm_final = Except.ok v) :
    (free_memory aggressive env).2 = Except.ok () := by
  have hg := free_gpu_vram_ok aggressive env hg1 he1
  have hs := free_system_ram_ok aggressive env hvi hg3 hvf
  simp [free_memory, hg, hs]

/-- Witness for the amended C2 at a concrete environment. -/
theorem reclaim_no_raise_when_unguarded_ok_witness :
    (free_memory true envBenign).2 = Except.ok () :=
  reclaim_no_raise_when_unguarded_ok true envBenign ⟨5, rfl⟩ rfl
    ⟨{ percent := 50, available := 8 * 1024 ^ 3 }, rfl⟩ ⟨7, rfl⟩
    ⟨{ percent := 40, available := 10 * 1024 ^ 3 }, rfl⟩

end FreeMemory

namespace FreeMemory

theorem gpu_non_aggressive_filter (env : Env) :
    (free_gpu_vram false env).1.filter aggressiveOnlyEv = [] := by
  by_cases hc : env.cuda_available = false
  · simp [free_gpu_vram, hc, aggressiveOnlyEv]
  · cases hg : env.gc1 <;> cases he : env.empty_cache1 <;>
      simp [free_gpu_vram, hc, hg, he, aggressiveOnlyEv, List.filter_append,
        filter_vramInitEvents_aggrOnly, filter_vramFinalEvents_aggrOnly]

theorem ram_non_aggressive_filter (env : Env) :
    (free_system_ram false env).1.filter aggressiveOnlyEv = [] := by
  cases h1 : env.vm_init <;> cases h2 : env.gc3 <;> cases h3 : env.vm_final <;>
    simp [free_system_ram, h1, h2, h3, aggressiveOnlyEv, List.filter_append]

/-- C3: with `aggressive=false` no model-unload call and no OS
cache-clearing action (no sync, no drop-caches write, no working-set trim,
not even the process-handle lookup) occurs during `free_memory`, whatever
the collaborators do: the trace contains none of those events, so only
garbage collection, the accelerator cache-empty, statistics capture and
logging remain. -/
theorem non_aggressive_no_unload_no_os_clear (env : Env) :
    (free_memory false env).1.filter aggressiveOnlyEv = [] := by
  have hg := gpu_non_aggressive_filter env
  have hs := ram_non_aggressive_filter env
  unfold free_memory
  split
  · simp [List.filter_append, hg, aggressiveOnlyEv]
  · split <;> simp [List.filter_append, hg, hs, aggressiveOnlyEv]

end FreeMemory

namespace FreeMemory

/-- C4: with `aggressive=true`, when `mm.unload_all_models()` raises, the
exception is caught (the routine completes with no exception to the caller)
and the final memory snapshots and deltas are still captured and reported:
the warning for the caught exception, the VRAM freed figure and the RAM
deltas all appear in the trace. -/
theorem unload_error_still_reports (env : Env) (e : Pexc)
    (ia ir fa fr : Int) (vi vf : VMem)
    (hc : env.cuda_available = true)
    (hu : env.unload = Except.error e)
    (hg1 : ∃ n, env.gc1 = Except.ok n)
    (he1 : env.empty_cache1 = Except.ok ())
    (hvi : env.vram_init = Except.ok (ia, ir))
    (hvf : env.vram_final = Except.ok (fa, fr))
    (hmi : env.vm_init = Except.ok vi)
    (hg3 : ∃ n, env.gc3 = Except.ok n)
    (hmf : env.vm_final = Except.ok vf) :
    (free_memory true env).2 = Except.ok () ∧
    Event.log (LogMsg.errAggressiveUnload e) ∈ (free_memory true env).1 ∧
    Event.log (LogMsg.vramFreedAllocated (bytes_to_gb ia - bytes_to_gb fa)) ∈
      (free_memory true env).1 ∧
    Event.log (LogMsg.ramAvailableChange
        (bytes_to_gb vf.available - bytes_to_gb vi.available)) ∈
      (free_memory true env).1 := by
  obtain ⟨n1, hn1⟩ := hg1
  obtain ⟨n3, hn3⟩ := hg3
  have hgeq := free_gpu_vram_ok_eq true env n1 hc hn1 he1
  have hseq := free_system_ram_ok_eq true env vi vf n3 hmi hn3 hmf
  have hgok : (free_gpu_vram true env).2 = Except.ok () := by rw [hgeq]
  have hsok : (free_system_ram true env).2 = Except.ok () := by rw [hseq]
  rw [free_memory_ok_eq true env hgok hsok]
  refine ⟨rfl, ?_, ?_, ?_⟩ <;>
    simp [hgeq, hseq, hvi, hvf, hu, vramInitEvents, vramFinalEvents,
      initAllocGb, unloadEvents, List.mem_append]

/-- Witness for C4 at a concrete environment. -/
theorem unload_error_still_reports_witness :
    (free_memory true envUnloadFail).2 = Except.ok () ∧
    Event.log (LogMsg.errAggressiveUnload (Pexc.exc "unload failed")) ∈
      (free_memory true envUnloadFail).1 ∧
    Event.log (LogMsg.vramFreedAllocated
        (bytes_to_gb (3 * 1024 ^ 3) - bytes_to_gb (1 * 1024 ^ 3))) ∈
      (free_memory true envUnloadFail).1 ∧
    Event.log (LogMsg.ramAvailableChange
        (bytes_to_gb (VMem.mk 40 (10 * 1024 ^ 3)).available -
         bytes_to_gb (VMem.mk 50 (8 * 1024 ^ 3)).available)) ∈
      (free_memory true envUnloadFail).1 :=
  unload_error_still_reports envUnloadFail (Pexc.exc "unload failed")
    (3 * 1024 ^ 3) (4 * 1024 ^ 3) (1 * 1024 ^ 3) (2 * 1024 ^ 3)
    (VMem.mk 50 (8 * 1024 ^ 3)) (VMem.mk 40 (10 * 1024 ^ 3))
    rfl rfl ⟨5, rfl⟩ rfl rfl rfl rfl ⟨7, rfl⟩ rfl

end FreeMemory

namespace FreeMemory

/-- C5: on POSIX with `aggressive=true`, when the drop-caches command
(`tee` writing 3 to the drop_caches interface) exits non-zero, the routine
logs the warning carrying the captured return code and stderr, does not
raise, and completes through the final statistics step (the after-figures
are reported). -/
theorem drop_caches_failure_logged (env : Env) (c : Int) (se : String)
    (vi vf : VMem)
    (hos : env.os_name = OSName.posix)
    (htee : env.tee_run = RunResult.calledProcessError c se)
    (hg1 : ∃ n, env.gc1 = Except.ok n)
    (he1 : env.empty_cache1 = Except.ok ())
    (hmi : env.vm_init = Except.ok vi)
    (hg3 : ∃ n, env.gc3 = Except.ok n)
    (hmf : env.vm_final = Except.ok vf) :
    Event.log (LogMsg.errDropCaches c se) ∈ (free_memory true env).1 ∧
    (free_memory true env).2 = Except.ok () ∧
    Event.log (LogMsg.ramAfter vf.percent (bytes_to_gb vf.available)) ∈
      (free_memory true env).1 := by
  obtain ⟨n3, hn3⟩ := hg3
  have hseq := free_system_ram_ok_eq true env vi vf n3 hmi hn3 hmf
  have hgok : (free_gpu_vram true env).2 = Except.ok () :=
    free_gpu_vram_ok true env hg1 he1
  have hsok : (free_system_ram true env).2 = Except.ok () := by rw [hseq]
  rw [free_memory_ok_eq true env hgok hsok]
  refine ⟨?_, rfl, ?_⟩ <;>
    simp [hseq, cacheClearEvents, hos, htee, teeEvents, List.mem_append]

/-- Witness for C5 at a concrete environment. -/
theorem drop_caches_failure_logged_witness :
    Event.log (LogMsg.errDropCaches 1 "tee: permission denied") ∈
      (free_memory true envTeeDenied).1 ∧
    (free_memory true envTeeDenied).2 = Except.ok () ∧
    Event.log (LogMsg.ramAfter (VMem.mk 40 (10 * 1024 ^ 3)).percent
        (bytes_to_gb (VMem.mk 40 (10 * 1024 ^ 3)).available)) ∈
      (free_memory true envTeeDenied).1 :=
  drop_caches_failure_logged envTeeDenied 1 "tee: permission denied"
    (VMem.mk 50 (8 * 1024 ^ 3)) (VMem.mk 40 (10 * 1024 ^ 3))
    rfl rfl ⟨5, rfl⟩ rfl rfl ⟨7, rfl⟩ rfl

/-- C7: on POSIX with `aggressive=true`, the `sync` sub-call is invoked
with a 30-second timeout and the drop-caches write with a 10-second
timeout; they are the only timeouts the two sub-calls get, and when either
expires the sub-step ends with a logged timeout warning while the routine
continues: the drop-caches call still happens after a sync timeout, the
final statistics are still reported, and no exception reaches the
caller. -/
theorem sync_tee_timeouts_bounded (env : Env) (vi vf : VMem)
    (hos : env.os_name = OSName.posix)
    (hg1 : ∃ n, env.gc1 = Except.ok n)
    (he1 : env.empty_cache1 = Except.ok ())
    (hmi : env.vm_init = Except.ok vi)
    (hg3 : ∃ n, env.gc3 = Except.ok n)
    (hmf : env.vm_final = Except.ok vf) :
    Event.runSync 30 ∈ (free_memory true env).1 ∧
    Event.runTee "3" 10 ∈ (free_memory true env).1 ∧
    (env.sync_run = RunResult.timeoutExpired →
      Event.log LogMsg.errSyncTimeout ∈ (free_memory true env).1) ∧
    (env.tee_run = RunResult.timeoutExpired →
      Event.log LogMsg.errTeeTimeout ∈ (free_memory true env).1) ∧
    Event.log (LogMsg.ramAfter vf.percent (bytes_to_gb vf.available)) ∈
      (free_memory true env).1 ∧
    (free_memory true env).2 = Except.ok () := by
  obtain ⟨n3, hn3⟩ := hg3
  have hseq := free_system_ram_ok_eq true env vi vf n3 hmi hn3 hmf
  have hgok : (free_gpu_vram true env).2 = Except.ok () :=
    free_gpu_vram_ok true env hg1 he1
  have hsok : (free_system_ram true env).2 = Except.ok () := by rw [hseq]
  rw [free_memory_ok_eq true env hgok hsok]
  refine ⟨?_, ?_, fun hs => ?_, fun ht => ?_, ?_, rfl⟩
  · simp [hseq, cacheClearEvents, hos, List.mem_append]
  · simp [hseq, cacheClearEvents, hos, List.mem_append]
  · simp [hseq, cacheClearEvents, hos, hs, syncEvents, List.mem_append]
  · simp [hseq, cacheClearEvents, hos, ht, teeEvents, List.mem_append]
  · simp [hseq, List.mem_append]

/-- Witness for C7 at a concrete environment in which both commands time
out. -/
theorem sync_tee_timeouts_bounded_witness :
    Event.runSync 30 ∈ (free_memory true envTimeouts).1 ∧
    Event.runTee "3" 10 ∈ (free_memory true envTimeouts).1 ∧
    (envTimeouts.sync_run = RunResult.timeoutExpired →
      Event.log LogMsg.errSyncTimeout ∈ (free_memory true envTimeouts).1) ∧
    (envTimeouts.tee_run = RunResult.timeoutExpired →
      Event.log LogMsg.errTeeTimeout ∈ (free_memory true envTimeouts).1) ∧
    Event.log (LogMsg.ramAfter (VMem.mk 40 (10 * 1024 ^ 3)).percent
        (bytes_to_gb (VMem.mk 40 (10 * 1024 ^ 3)).available)) ∈
      (free_memory true envTimeouts).1 ∧
    (free_memory true envTimeouts).2 = Except.ok () :=
  sync_tee_timeouts_bounded envTimeouts
    (VMem.mk 50 (8 * 1024 ^ 3)) (VMem.mk 40 (10 * 1024 ^ 3))
    rfl ⟨5, rfl⟩ rfl rfl ⟨7, rfl⟩ rfl

end FreeMemory

namespace FreeMemory

/-- C6 counterexample: the reported deltas are not all final minus initial.
In a run in which allocated VRAM goes from 3 GB down to 1 GB and RAM usage
from 50% down to 40%, final minus initial would be -2 GB and -10 points;
the code reports +2 (`initial - final`, line 68) and +10
(`initial - final`, line 154), and the values -2 and -10 are reported
nowhere. -/
theorem delta_direction_counterexample :
    Event.log (LogMsg.vramFreedAllocated 2) ∈ (free_memory false envBenign).1 ∧
    Event.log (LogMsg.vramFreedAllocated (-2)) ∉
      (free_memory false envBenign).1 ∧
    Event.log (LogMsg.ramUsageChange 10) ∈ (free_memory false envBenign).1 ∧
    Event.log (LogMsg.ramUsageChange (-10)) ∉ (free_memory false envBenign).1 := by
  refine ⟨?_, ?_, ?_, ?_⟩ <;>
    norm_num [free_memory, free_gpu_vram, free_system_ram, envBenign,
      vramInitEvents, initAllocGb, vramFinalEvents, bytes_to_gb,
      List.mem_append, List.mem_cons] <;> simp

/-- C6 (amended): each reported delta is exact and keeps its sign, but
their directions differ: the VRAM freed (allocated) figure and the RAM
usage change in percentage points are `initial - final`, while the RAM
available change is `final - initial`. -/
theorem deltas_exact (env : Env) (ia ir fa fr : Int) (vi vf : VMem)
    (aggressive : Bool)
    (hc : env.cuda_available = true)
    (hvi : env.vram_init = Except.ok (ia, ir))
    (hg1 : ∃ n, env.gc1 = Except.ok n)
    (he1 : env.empty_cache1 = Except.ok ())
    (hvf : env.vram_final = Except.ok (fa, fr))
    (hmi : env.vm_init = Except.ok vi)
    (hg3 : ∃ n, env.gc3 = Except.ok n)
    (hmf : env.vm_final = Except.ok vf) :
    Event.log (LogMsg.vramFreedAllocated (bytes_to_gb ia - bytes_to_gb fa)) ∈
      (free_memory aggressive env).1 ∧
    Event.log (LogMsg.ramUsageChange (vi.percent - vf.percent)) ∈
      (free_memory aggressive env).1 ∧
    Event.log (LogMsg.ramAvailableChange
        (bytes_to_gb vf.available - bytes_to_gb vi.available)) ∈
      (free_memory aggressive env).1 := by
  obtain ⟨n1, hn1⟩ := hg1
  obtain ⟨n3, hn3⟩ := hg3
  have hgeq := free_gpu_vram_ok_eq aggressive env n1 hc hn1 he1
  have hseq := free_system_ram_ok_eq aggressive env vi vf n3 hmi hn3 hmf
  have hgok : (free_gpu_vram aggressive env).2 = Except.ok () := by rw [hgeq]
  have hsok : (free_system_ram aggressive env).2 = Except.ok () := by rw [hseq]
  rw [free_memory_ok_eq aggressive env hgok hsok]
  refine ⟨?_, ?_, ?_⟩ <;>
    simp [hgeq, hseq, hvi, hvf, vramInitEvents, vramFinalEvents, initAllocGb,
      List.mem_append]

/-- Witness for the amended C6 at a concrete environment. -/
theorem deltas_exact_witness :
    Event.log (LogMsg.vramFreedAllocated
        (bytes_to_gb (3 * 1024 ^ 3) - bytes_to_gb (1 * 1024 ^ 3))) ∈
      (free_memory false envBenign).1 ∧
    Event.log (LogMsg.ramUsageChange
        ((VMem.mk 50 (8 * 1024 ^ 3)).percent -
         (VMem.mk 40 (10 * 1024 ^ 3)).percent)) ∈
      (free_memory false envBenign).1 ∧
    Event.log (LogMsg.ramAvailableChange
        (bytes_to_gb (VMem.mk 40 (10 * 1024 ^ 3)).available -
         bytes_to_gb (VMem.mk 50 (8 * 1024 ^ 3)).available)) ∈
      (free_memory false envBenign).1 :=
  deltas_exact envBenign (3 * 1024 ^ 3) (4 * 1024 ^ 3) (1 * 1024 ^ 3)
    (2 * 1024 ^ 3) (VMem.mk 50 (8 * 1024 ^ 3)) (VMem.mk 40 (10 * 1024 ^ 3))
    false rfl rfl ⟨5, rfl⟩ rfl rfl rfl ⟨7, rfl⟩ rfl

end FreeMemory

namespace FreeMemory

theorem filterMap_evAction_vramInitEvents (x : Except Pexc (Int × Int)) :
    List.filterMap evAction (vramInitEvents x) = [Action.captureStats] := by
  cases x <;> rfl

theorem filterMap_evAction_vramFinalEvents (q : ℚ)
    (x : Except Pexc (Int × Int)) :
    List.filterMap evAction (vramFinalEvents q x) = [Action.captureStats] := by
  cases x <;> rfl

theorem filterMap_evAction_rootWarn (c : Prop) [Decidable c] (m : LogMsg) :
    List.filterMap evAction (if c then [] else [Event.log m]) = [] := by
  split <;> rfl

/-- C8 counterexample: the code does not perform the sub-steps in the order
the claim prescribes.  In a run with `aggressive=false` and every
collaborator succeeding, the claim's order prescribes the action sequence
baseline-stats, gc, cache-empty, final-stats; the code instead interleaves
two phases (GPU then system RAM), captures the GPU final statistics before
the RAM baseline, and runs garbage collection twice. -/
theorem action_order_counterexample :
    actionsOf (free_memory false envBenign).1 ≠ specActionSeq false := by
  decide

/-- C8 (amended): each invocation performs, in fixed order, a GPU phase —
capture GPU baseline stats, gc, accelerator cache-empty, if aggressive
unload all models then gc and cache-empty again, capture GPU final stats —
followed by a system-RAM phase — capture RAM baseline stats, gc, if
aggressive the OS cache dropping (POSIX: sync then the drop-caches write),
capture RAM final stats.  On POSIX with every collaborator call
succeeding, the external actions are invoked exactly that many times and
in exactly that sequence (so gc runs twice, not once, in a non-aggressive
run, and three times in an aggressive one). -/
theorem action_order (env : Env) (aggressive : Bool)
    (hc : env.cuda_available = true)
    (hg1 : ∃ n, env.gc1 = Except.ok n)
    (he1 : env.empty_cache1 = Except.ok ())
    (hu : env.unload = Except.ok ())
    (hg2 : ∃ n, env.gc2 = Except.ok n)
    (he2 : env.empty_cache2 = Except.ok ())
    (hmi : ∃ v, env.vm_init = Except.ok v)
    (hg3 : ∃ n, env.gc3 = Except.ok n)
    (hmf : ∃ v, env.vm_final = Except.ok v)
    (hos : env.os_name = OSName.posix) :
    actionsOf (free_memory aggressive env).1 = codeActionSeq aggressive := by
  obtain ⟨n1, hn1⟩ := hg1
  obtain ⟨n2, hn2⟩ := hg2
  obtain ⟨vi, hvi⟩ := hmi
  obtain ⟨n3, hn3⟩ := hg3
  obtain ⟨vf, hvf⟩ := hmf
  have hgeq := free_gpu_vram_ok_eq aggressive env n1 hc hn1 he1
  have hseq := free_system_ram_ok_eq aggressive env vi vf n3 hvi hn3 hvf
  have hgok : (free_gpu_vram aggressive env).2 = Except.ok () := by rw [hgeq]
  have hsok : (free_system_ram aggressive env).2 = Except.ok () := by rw [hseq]
  rw [free_memory_ok_eq aggressive env hgok hsok]
  cases aggressive <;>
    simp [hgeq, hseq, hu, hn2, he2, actionsOf, List.filterMap_append,
      evAction, filterMap_evAction_vramInitEvents,
      filterMap_evAction_vramFinalEvents, cacheClearEvents, hos,
      filterMap_evAction_syncEvents, filterMap_evAction_teeEvents,
      filterMap_evAction_rootWarn, unloadEvents, codeActionSeq]

/-- Witness for the amended C8 at a concrete environment. -/
theorem action_order_witness :
    actionsOf (free_memory true envBenign).1 = codeActionSeq true :=
  action_order envBenign true rfl ⟨5, rfl⟩ rfl rfl ⟨2, rfl⟩ rfl
    ⟨VMem.mk 50 (8 * 1024 ^ 3), rfl⟩ ⟨7, rfl⟩
    ⟨VMem.mk 40 (10 * 1024 ^ 3), rfl⟩ rfl

/-- C9: when the initial accelerator-memory snapshot raises, the baseline
allocated figure is set to 0 by the except arm, so the reported VRAM freed
(allocated) figure is the negation of the final allocated value rather
than a true difference. -/
theorem initial_vram_error_negated_final (env : Env) (aggressive : Bool)
    (e : Pexc) (fa fr : Int)
    (hc : env.cuda_available = true)
    (hvi : env.vram_init = Except.error e)
    (hg1 : ∃ n, env.gc1 = Except.ok n)
    (he1 : env.empty_cache1 = Except.ok ())
    (hvf : env.vram_final = Except.ok (fa, fr)) :
    initAllocGb env.vram_init = 0 ∧
    Event.log (LogMsg.vramFreedAllocated (-(bytes_to_gb fa))) ∈
      (free_gpu_vram aggressive env).1 := by
  obtain ⟨n1, hn1⟩ := hg1
  have hgeq := free_gpu_vram_ok_eq aggressive env n1 hc hn1 he1
  refine ⟨by simp [hvi, initAllocGb], ?_⟩
  rw [hgeq]
  simp [hvi, hvf, vramFinalEvents, initAllocGb, List.mem_append]

/-- Witness for C9 at a concrete environment. -/
theorem initial_vram_error_negated_final_witness :
    initAllocGb envInitVramFail.vram_init = 0 ∧
    Event.log (LogMsg.vramFreedAllocated (-(bytes_to_gb (1 * 1024 ^ 3)))) ∈
      (free_gpu_vram false envInitVramFail).1 :=
  initial_vram_error_negated_final envInitVramFail false
    (Pexc.exc "stats failed") (1 * 1024 ^ 3) (2 * 1024 ^ 3)
    rfl rfl ⟨5, rfl⟩ rfl rfl

/-- C10: with `aggressive=true`, when `mm.unload_all_models()` raises, the
repeated garbage collection and cache-empty of the aggressive block (lines
55-56) are skipped: the GPU phase performs exactly one gc and one
cache-empty in total, instead of the two of a successful unload. -/
theorem unload_error_skips_second_round (env : Env) (e : Pexc)
    (hc : env.cuda_available = true)
    (hu : env.unload = Except.error e)
    (hg1 : ∃ n, env.gc1 = Except.ok n)
    (he1 : env.empty_cache1 = Except.ok ()) :
    countEv isGcEv (free_gpu_vram true env).1 = 1 ∧
    countEv isEmptyCacheEv (free_gpu_vram true env).1 = 1 := by
  obtain ⟨n1, hn1⟩ := hg1
  have hgeq := free_gpu_vram_ok_eq true env n1 hc hn1 he1
  rw [hgeq]
  constructor <;>
    simp [countEv, List.filter_append, hu, unloadEvents, isGcEv,
      isEmptyCacheEv, filter_vramInitEvents_gc, filter_vramFinalEvents_gc,
      filter_vramInitEvents_ec, filter_vramFinalEvents_ec]

/-- Witness for C10 at a concrete environment. -/
theorem unload_error_skips_second_round_witness :
    countEv isGcEv (free_gpu_vram true envUnloadFail).1 = 1 ∧
    countEv isEmptyCacheEv (free_gpu_vram true envUnloadFail).1 = 1 :=
  unload_error_skips_second_round envUnloadFail (Pexc.exc "unload failed")
    rfl rfl ⟨5, rfl⟩ rfl

end FreeMemory
